import Mathlib

/-
Verification of the AI text-relay backend.

The single route module (POST /api/generate, GET /api/messages) is embedded
below.  The modules it imports that are not part of the provided sources
(the message store `./storage`, the body schema `promptSchema` from
`@shared/schema`, and the collaborator `generateText` from
`./services/gemini`) are modelled from the specification; each such
definition says so in its doc comment.  String lengths are modelled as
character counts and JS `trim` as the structural `Relay.trim` below.
-/

namespace Relay

/-- A stored prompt/response pair: `{id, prompt, response, createdAt}`.
Identifiers are modelled as naturals assigned by a counter and timestamps as
naturals supplied with each request. -/
structure Message where
  id : Nat
  prompt : String
  response : String
  createdAt : Nat
  deriving DecidableEq

/-- Modelled from the spec: the in-memory message store (`./storage` is
imported by the route module but is not among the sources).  It keeps the
stored messages in insertion order together with the counter that yields
fresh unique identifiers. -/
structure MemStorage where
  messages : List Message
  nextId : Nat
  deriving DecidableEq

/-- The store at process start: no messages. -/
def emptyStorage : MemStorage := ⟨[], 0⟩

/-- Modelled from the spec: `createMessage(prompt, response)` assigns a fresh
unique id and the current timestamp, inserts the record, and returns it. -/
def createMessage (s : MemStorage) (prompt response : String) (now : Nat) :
    Message × MemStorage :=
  let m : Message := ⟨s.nextId, prompt, response, now⟩
  (m, ⟨s.messages ++ [m], s.nextId + 1⟩)

/-- Modelled from the spec: `getMessages()` returns all stored messages in
insertion order. -/
def getMessages (s : MemStorage) : List Message := s.messages

/-- JS `String.prototype.trim`: strip leading and trailing whitespace.  Core
`String.trim` is defined by well-founded recursion on byte positions and does
not reduce in the kernel, so the embedding uses this structural equivalent
over the character list. -/
def trim (s : String) : String :=
  ⟨((s.data.dropWhile Char.isWhitespace).reverse.dropWhile
      Char.isWhitespace).reverse⟩

/-- A JSON value sitting in the `prompt` field of a request body: either a
string or any non-string JSON value. -/
inductive FieldVal where
  | str (s : String)
  | nonStr
  deriving DecidableEq

/-- The request body of POST /api/generate; `none` means the `prompt` field
is absent. -/
structure ReqBody where
  prompt : Option FieldVal
  deriving DecidableEq

/-- Modelled from the spec: `promptSchema` (from `@shared/schema`, not among
the sources) parses a body of shape `\x7bprompt: string\x7d`; a missing or
non-string `prompt` raises `ZodError`, rendered as `none`. -/
def promptSchema.parse (b : ReqBody) : Option String :=
  match b.prompt with
  | some (.str s) => some s
  | _ => none

/-- The error thrown by a failing collaborator call; `message` is its
`.message` property. -/
structure GenError where
  message : String
  deriving DecidableEq

/-- What one POST /api/generate request sends back: the JSON bodies of the
three `res.status(..).json(..)` / `res.json(..)` sites of the handler. -/
inductive HandlerResult where
  | badRequest (error : String)
  | serverError (error : String)
  | ok (id : Nat) (prompt : String) (response : String) (createdAt : Nat)
      (tokens : Nat)
  deriving DecidableEq

/-- The HTTP status a `HandlerResult` is sent with. -/
def HandlerResult.status : HandlerResult → Nat
  | .badRequest _ => 400
  | .serverError _ => 500
  | .ok _ _ _ _ _ => 200

/-- The observable outcome of one POST /api/generate request: the JSON
result, the store afterwards, the arguments `generateText` was invoked with
(in order), and the messages `createMessage` returned (in order). -/
structure HandlerOutcome where
  result : HandlerResult
  store : MemStorage
  genCalls : List String
  created : List Message
  deriving DecidableEq

/-- The POST /api/generate handler of the route module, embedded line by
line.  `generateText` is the collaborator (its module is not among the
sources, so the handler is parametrised by it; per the spec it returns a
generated string or fails).  The guard `prompt = ""` renders the falsiness
test `!prompt`; the only `ZodError` arises from `promptSchema.parse`, so the
catch branch that answers 400 is the parse-failure case and the catch-all
500 branch is the collaborator-failure case, whose body renders
`error.message || "Failed to generate AI response"`. -/
def generateHandler (generateText : String → Except GenError String)
    (store : MemStorage) (body : ReqBody) (now : Nat) : HandlerOutcome :=
  match promptSchema.parse body with
  | none => ⟨.badRequest "Invalid request format", store, [], []⟩
  | some prompt =>
    if prompt = "" ∨ (trim prompt).length = 0 then
      ⟨.badRequest "Prompt is required and cannot be empty", store, [], []⟩
    else if prompt.length > 2000 then
      ⟨.badRequest "Prompt exceeds maximum length of 2000 characters",
        store, [], []⟩
    else
      match generateText prompt with
      | .error e =>
        ⟨.serverError
            (if e.message = "" then "Failed to generate AI response"
             else e.message),
          store, [prompt], []⟩
      | .ok response =>
        let p := createMessage store (trim prompt) (trim response) now
        ⟨.ok p.1.id p.1.prompt p.1.response p.1.createdAt
            (response.length / 4),
          p.2, [prompt], [p.1]⟩

/-- The GET /api/messages handler: serves `getMessages()`, no mutation. -/
def messagesHandler (store : MemStorage) : List Message × MemStorage :=
  (getMessages store, store)

/-- One request to a public endpoint.  A generate request carries the
collaborator behaviour observed during that request and the timestamp. -/
inductive ApiRequest where
  | generate (generateText : String → Except GenError String)
      (body : ReqBody) (now : Nat)
  | messages

/-- Serving one request: the store afterwards and the messages created. -/
def step (store : MemStorage) : ApiRequest → MemStorage × List Message
  | .generate g b t =>
    ((generateHandler g store b t).store, (generateHandler g store b t).created)
  | .messages => ((messagesHandler store).2, [])

/-- Serving a sequence of requests: the final store and all messages created
during the sequence, in creation order. -/
def run (store : MemStorage) : List ApiRequest → MemStorage × List Message
  | [] => (store, [])
  | r :: rs =>
    ((run (step store r).1 rs).1, (step store r).2 ++ (run (step store r).1 rs).2)

end Relay

namespace Relay

/-- A string has length zero exactly when it is empty. -/
theorem length_eq_zero_iff {s : String} : s.length = 0 ↔ s = "" := by
  cases s with
  | mk data =>
    constructor
    · intro h
      have hd : data = [] := List.length_eq_zero.mp h
      simp [hd]
    · intro h
      have hd : data = [] := by
        have := congrArg String.data h
        simpa using this
      simp [hd, String.length]

/-- A prompt whose trim is non-empty passes the emptiness guard. -/
theorem valid_guard {prompt : String} (h : trim prompt ≠ "") :
    ¬(prompt = "" ∨ (trim prompt).length = 0) := by
  rintro (rfl | hl)
  · exact h rfl
  · exact h (length_eq_zero_iff.mp hl)

/-- Path lemma: a body rejected by the schema yields the ZodError branch. -/
theorem generateHandler_parseFail (g : String → Except GenError String)
    (store : MemStorage) (body : ReqBody) (now : Nat)
    (hp : promptSchema.parse body = none) :
    generateHandler g store body now =
      ⟨.badRequest "Invalid request format", store, [], []⟩ := by
  simp only [generateHandler, hp]

/-- Path lemma: a prompt that is empty after trimming yields the first 400. -/
theorem generateHandler_trimEmpty (g : String → Except GenError String)
    (store : MemStorage) (body : ReqBody) (now : Nat) {prompt : String}
    (hp : promptSchema.parse body = some prompt) (h : trim prompt = "") :
    generateHandler g store body now =
      ⟨.badRequest "Prompt is required and cannot be empty", store, [], []⟩ := by
  have hc : prompt = "" ∨ (trim prompt).length = 0 :=
    Or.inr (by rw [h]; rfl)
  simp only [generateHandler, hp, if_pos hc]

/-- Path lemma: a prompt longer than 2000 characters (and not empty after
trimming) yields the oversize 400. -/
theorem generateHandler_oversize (g : String → Except GenError String)
    (store : MemStorage) (body : ReqBody) (now : Nat) {prompt : String}
    (hp : promptSchema.parse body = some prompt) (h1 : trim prompt ≠ "")
    (h2 : 2000 < prompt.length) :
    generateHandler g store body now =
      ⟨.badRequest "Prompt exceeds maximum length of 2000 characters",
        store, [], []⟩ := by
  simp only [generateHandler, hp, if_neg (valid_guard h1), if_pos h2]

/-- Path lemma: on a valid prompt with a failing collaborator, the handler
reaches the catch-all 500 branch without touching the store. -/
theorem generateHandler_genError (g : String → Except GenError String)
    (store : MemStorage) (body : ReqBody) (now : Nat) {prompt : String}
    {e : GenError} (hp : promptSchema.parse body = some prompt)
    (h1 : trim prompt ≠ "") (h2 : prompt.length ≤ 2000)
    (hg : g prompt = .error e) :
    generateHandler g store body now =
      ⟨.serverError
          (if e.message = "" then "Failed to generate AI response"
           else e.message),
        store, [prompt], []⟩ := by
  simp only [generateHandler, hp, if_neg (valid_guard h1),
    if_neg (Nat.not_lt.mpr h2), hg]

/-- Path lemma: on a valid prompt with a succeeding collaborator, the handler
stores the trimmed pair and serializes the stored record plus the token
estimate taken from the untrimmed output. -/
theorem generateHandler_ok (g : String → Except GenError String)
    (store : MemStorage) (body : ReqBody) (now : Nat) {prompt r : String}
    (hp : promptSchema.parse body = some prompt) (h1 : trim prompt ≠ "")
    (h2 : prompt.length ≤ 2000) (hg : g prompt = .ok r) :
    generateHandler g store body now =
      ⟨.ok store.nextId (trim prompt) (trim r) now (r.length / 4),
        ⟨store.messages ++ [⟨store.nextId, trim prompt, trim r, now⟩],
          store.nextId + 1⟩,
        [prompt], [⟨store.nextId, trim prompt, trim r, now⟩]⟩ := by
  simp only [generateHandler, hp, if_neg (valid_guard h1),
    if_neg (Nat.not_lt.mpr h2), hg, createMessage]

/-- One request only ever appends to the stored messages, exactly the
messages it created. -/
theorem step_messages (store : MemStorage) (r : ApiRequest) :
    (step store r).1.messages = store.messages ++ (step store r).2 := by
  cases r with
  | messages => simp [step, messagesHandler]
  | generate g b t =>
    simp only [step]
    rcases hp : promptSchema.parse b with _ | prompt
    · rw [generateHandler_parseFail g store b t hp]; simp
    · by_cases h1 : trim prompt = ""
      · rw [generateHandler_trimEmpty g store b t hp h1]; simp
      · by_cases h2 : 2000 < prompt.length
        · rw [generateHandler_oversize g store b t hp h1 h2]; simp
        · cases hg : g prompt with
          | error e =>
            rw [generateHandler_genError g store b t hp h1 (Nat.not_lt.mp h2) hg]
            simp
          | ok resp =>
            rw [generateHandler_ok g store b t hp h1 (Nat.not_lt.mp h2) hg]

/-- A request sequence only ever appends to the stored messages, exactly the
messages created during the sequence, in order. -/
theorem run_messages (store : MemStorage) (rs : List ApiRequest) :
    (run store rs).1.messages = store.messages ++ (run store rs).2 := by
  induction rs generalizing store with
  | nil => simp [run]
  | cons r rs ih =>
    simp only [run]
    rw [ih (step store r).1, step_messages, List.append_assoc]

/-- C1 counterexample: on the valid prompt " a" the handler invokes the
collaborator with the raw string " a", not with its trim "a", refuting the
claim that the collaborator receives the trimmed prompt. -/
theorem generate_raw_prompt_cex :
    (generateHandler (fun s => .ok s) emptyStorage
        ⟨some (.str " a")⟩ 0).genCalls = [" a"] ∧
    (generateHandler (fun s => .ok s) emptyStorage
        ⟨some (.str " a")⟩ 0).genCalls ≠ [trim " a"] := by decide

/-- C1 (amended): for every valid prompt (non-empty after trimming, length
at most 2000), the handler invokes the collaborator exactly once, with the
raw prompt exactly as received, not trimmed. -/
theorem generate_invokes_collaborator_raw
    (g : String → Except GenError String) (store : MemStorage)
    (body : ReqBody) (now : Nat) {prompt : String}
    (hp : promptSchema.parse body = some prompt)
    (h1 : trim prompt ≠ "") (h2 : prompt.length ≤ 2000) :
    (generateHandler g store body now).genCalls = [prompt] := by
  cases hg : g prompt with
  | error e => rw [generateHandler_genError g store body now hp h1 h2 hg]
  | ok r => rw [generateHandler_ok g store body now hp h1 h2 hg]

/-- C1 witness: the amended claim at the concrete prompt "b c". -/
theorem generate_invokes_collaborator_raw_witness :
    trim "b c" ≠ "" ∧ "b c".length ≤ 2000 ∧
    (generateHandler (fun _ => .ok "out") emptyStorage
        ⟨some (.str "b c")⟩ 0).genCalls = ["b c"] :=
  ⟨by decide, by decide,
    generate_invokes_collaborator_raw (fun _ => .ok "out") emptyStorage
      ⟨some (.str "b c")⟩ 0 rfl (by decide) (by decide)⟩

/-- C2: a parsed prompt that is empty after trimming or longer than 2000
characters is answered with status 400, the store is unchanged and
createMessage is never reached. -/
theorem invalid_prompt_rejected
    (g : String → Except GenError String) (store : MemStorage)
    (body : ReqBody) (now : Nat) {prompt : String}
    (hp : promptSchema.parse body = some prompt)
    (h : trim prompt = "" ∨ 2000 < prompt.length) :
    (generateHandler g store body now).result.status = 400 ∧
    (generateHandler g store body now).store = store ∧
    (generateHandler g store body now).created = [] := by
  rcases h with h | h
  · rw [generateHandler_trimEmpty g store body now hp h]
    exact ⟨rfl, rfl, rfl⟩
  · by_cases h1 : trim prompt = ""
    · rw [generateHandler_trimEmpty g store body now hp h1]
      exact ⟨rfl, rfl, rfl⟩
    · rw [generateHandler_oversize g store body now hp h1 h]
      exact ⟨rfl, rfl, rfl⟩

/-- C2 witness: the claim at the concrete whitespace-only prompt "  ". -/
theorem invalid_prompt_rejected_witness :
    (trim "  " = "" ∨ 2000 < "  ".length) ∧
    ((generateHandler (fun s => .ok s) emptyStorage
        ⟨some (.str "  ")⟩ 0).result.status = 400 ∧
      (generateHandler (fun s => .ok s) emptyStorage
        ⟨some (.str "  ")⟩ 0).store = emptyStorage ∧
      (generateHandler (fun s => .ok s) emptyStorage
        ⟨some (.str "  ")⟩ 0).created = []) :=
  ⟨Or.inl (by decide),
    invalid_prompt_rejected (fun s => .ok s) emptyStorage
      ⟨some (.str "  ")⟩ 0 rfl (Or.inl (by decide))⟩

/-- C3: on a valid prompt, when the collaborator fails with a descriptive
(non-empty) message, the handler answers status 500 carrying exactly that
message, the store is unchanged and no message is created. -/
theorem collaborator_failure_500
    (g : String → Except GenError String) (store : MemStorage)
    (body : ReqBody) (now : Nat) {prompt : String} {e : GenError}
    (hp : promptSchema.parse body = some prompt)
    (h1 : trim prompt ≠ "") (h2 : prompt.length ≤ 2000)
    (hg : g prompt = .error e) (hm : e.message ≠ "") :
    (generateHandler g store body now).result = .serverError e.message ∧
    (generateHandler g store body now).result.status = 500 ∧
    (generateHandler g store body now).store = store ∧
    (generateHandler g store body now).created = [] := by
  rw [generateHandler_genError g store body now hp h1 h2 hg]
  refine ⟨?_, rfl, rfl, rfl⟩
  simp [if_neg hm]

/-- C3 witness: the claim at the concrete prompt "hey" with a collaborator
failing with message "boom". -/
theorem collaborator_failure_500_witness :
    trim "hey" ≠ "" ∧ "hey".length ≤ 2000 ∧
    (GenError.mk "boom").message ≠ "" ∧
    ((generateHandler (fun _ => .error ⟨"boom"⟩) emptyStorage
        ⟨some (.str "hey")⟩ 0).result = .serverError "boom" ∧
      (generateHandler (fun _ => .error ⟨"boom"⟩) emptyStorage
        ⟨some (.str "hey")⟩ 0).result.status = 500 ∧
      (generateHandler (fun _ => .error ⟨"boom"⟩) emptyStorage
        ⟨some (.str "hey")⟩ 0).store = emptyStorage ∧
      (generateHandler (fun _ => .error ⟨"boom"⟩) emptyStorage
        ⟨some (.str "hey")⟩ 0).created = []) :=
  ⟨by decide, by decide, by decide,
    collaborator_failure_500 (fun _ => .error ⟨"boom"⟩) emptyStorage
      ⟨some (.str "hey")⟩ 0 rfl (by decide) (by decide) rfl (by decide)⟩

/-- C4 counterexample: with collaborator output "aaaa    " (four trailing
spaces) the 200 body has response field "aaaa" but tokens field 2, while
floor of the response-field length over 4 is 1, refuting the claim that the
tokens field is computed from the string returned in the body. -/
theorem tokens_field_cex :
    (generateHandler (fun _ => .ok "aaaa    ") emptyStorage
        ⟨some (.str "hi")⟩ 0).result = .ok 0 "hi" "aaaa" 0 2 ∧
    (2 : Nat) ≠ "aaaa".length / 4 := by decide

/-- C4 (amended): for every successful generation the tokens field of the
200 response equals floor of the length of the raw, untrimmed collaborator
output over 4, while the response field of the body is the trimmed output. -/
theorem tokens_from_untrimmed_output
    (g : String → Except GenError String) (store : MemStorage)
    (body : ReqBody) (now : Nat) {prompt r : String}
    (hp : promptSchema.parse body = some prompt)
    (h1 : trim prompt ≠ "") (h2 : prompt.length ≤ 2000)
    (hg : g prompt = .ok r) :
    (generateHandler g store body now).result
      = .ok store.nextId (trim prompt) (trim r) now (r.length / 4) := by
  rw [generateHandler_ok g store body now hp h1 h2 hg]

/-- C4 witness: the amended claim at prompt "hi" and output "aaaa    ". -/
theorem tokens_from_untrimmed_output_witness :
    trim "hi" ≠ "" ∧ "hi".length ≤ 2000 ∧
    (generateHandler (fun _ => .ok "aaaa    ") emptyStorage
        ⟨some (.str "hi")⟩ 0).result
      = .ok emptyStorage.nextId (trim "hi") (trim "aaaa    ") 0
          ("aaaa    ".length / 4) :=
  ⟨by decide, by decide,
    tokens_from_untrimmed_output (fun _ => .ok "aaaa    ") emptyStorage
      ⟨some (.str "hi")⟩ 0 rfl (by decide) (by decide) rfl⟩

/-- C5: on a valid prompt with a succeeding collaborator exactly one message
is appended to the store, carrying the trimmed prompt and the trimmed
output, and the 200 body carries the id, prompt, response and createdAt of
exactly that message. -/
theorem success_appends_one_message
    (g : String → Except GenError String) (store : MemStorage)
    (body : ReqBody) (now : Nat) {prompt r : String}
    (hp : promptSchema.parse body = some prompt)
    (h1 : trim prompt ≠ "") (h2 : prompt.length ≤ 2000)
    (hg : g prompt = .ok r) :
    (generateHandler g store body now).store.messages
      = store.messages ++ [⟨store.nextId, trim prompt, trim r, now⟩] ∧
    (generateHandler g store body now).created
      = [⟨store.nextId, trim prompt, trim r, now⟩] ∧
    (generateHandler g store body now).result
      = .ok store.nextId (trim prompt) (trim r) now (r.length / 4) := by
  rw [generateHandler_ok g store body now hp h1 h2 hg]
  exact ⟨rfl, rfl, rfl⟩

/-- C5 witness: the claim at prompt " hi " and collaborator output
" resp ". -/
theorem success_appends_one_message_witness :
    trim " hi " ≠ "" ∧ " hi ".length ≤ 2000 ∧
    ((generateHandler (fun _ => .ok " resp ") emptyStorage
        ⟨some (.str " hi ")⟩ 5).store.messages
      = emptyStorage.messages
          ++ [⟨emptyStorage.nextId, trim " hi ", trim " resp ", 5⟩] ∧
    (generateHandler (fun _ => .ok " resp ") emptyStorage
        ⟨some (.str " hi ")⟩ 5).created
      = [⟨emptyStorage.nextId, trim " hi ", trim " resp ", 5⟩] ∧
    (generateHandler (fun _ => .ok " resp ") emptyStorage
        ⟨some (.str " hi ")⟩ 5).result
      = .ok emptyStorage.nextId (trim " hi ") (trim " resp ") 5
          (" resp ".length / 4)) :=
  ⟨by decide, by decide,
    success_appends_one_message (fun _ => .ok " resp ") emptyStorage
      ⟨some (.str " hi ")⟩ 5 rfl (by decide) (by decide) rfl⟩

/-- C6: after any sequence of requests served from process start, GET
/api/messages returns exactly the messages created during the sequence, in
the order they were created. -/
theorem messages_in_creation_order (rs : List ApiRequest) :
    (messagesHandler (run emptyStorage rs).1).1 = (run emptyStorage rs).2 := by
  have h := run_messages emptyStorage rs
  simpa [messagesHandler, getMessages, emptyStorage] using h

/-- C7: the store is append-only: across any sequence of requests to the
public endpoints, the earlier GET /api/messages result is a prefix of the
later one, so every message present once is present unchanged ever after. -/
theorem store_append_only (store : MemStorage) (rs : List ApiRequest) :
    (messagesHandler store).1 <+: (messagesHandler (run store rs).1).1 :=
  ⟨(run store rs).2, (run_messages store rs).symm⟩

/-- C8: a request body rejected by the schema (prompt absent or not a
string) is answered with the 400 JSON error body, with no collaborator call
and no store access. -/
theorem malformed_body_rejected
    (g : String → Except GenError String) (store : MemStorage)
    (body : ReqBody) (now : Nat)
    (hp : promptSchema.parse body = none) :
    (generateHandler g store body now).result
      = .badRequest "Invalid request format" ∧
    (generateHandler g store body now).result.status = 400 ∧
    (generateHandler g store body now).store = store ∧
    (generateHandler g store body now).genCalls = [] ∧
    (generateHandler g store body now).created = [] := by
  rw [generateHandler_parseFail g store body now hp]
  exact ⟨rfl, rfl, rfl, rfl, rfl⟩

/-- C8 witness: the claim at the concrete body with no prompt field. -/
theorem malformed_body_rejected_witness :
    promptSchema.parse ⟨none⟩ = none ∧
    ((generateHandler (fun s => .ok s) emptyStorage ⟨none⟩ 0).result
      = .badRequest "Invalid request format" ∧
    (generateHandler (fun s => .ok s) emptyStorage ⟨none⟩ 0).result.status
      = 400 ∧
    (generateHandler (fun s => .ok s) emptyStorage ⟨none⟩ 0).store
      = emptyStorage ∧
    (generateHandler (fun s => .ok s) emptyStorage ⟨none⟩ 0).genCalls = [] ∧
    (generateHandler (fun s => .ok s) emptyStorage ⟨none⟩ 0).created = []) :=
  ⟨rfl, malformed_body_rejected (fun s => .ok s) emptyStorage ⟨none⟩ 0 rfl⟩

/-- C9: the length guard reads the raw, untrimmed prompt: every parsed
prompt of raw length above 2000 is answered with status 400 (whatever its
trimmed length), the store untouched and the collaborator never called. -/
theorem oversized_raw_prompt_rejected
    (g : String → Except GenError String) (store : MemStorage)
    (body : ReqBody) (now : Nat) {prompt : String}
    (hp : promptSchema.parse body = some prompt)
    (h : 2000 < prompt.length) :
    (generateHandler g store body now).result.status = 400 ∧
    (generateHandler g store body now).store = store ∧
    (generateHandler g store body now).genCalls = [] ∧
    (generateHandler g store body now).created = [] := by
  by_cases h1 : trim prompt = ""
  · rw [generateHandler_trimEmpty g store body now hp h1]
    exact ⟨rfl, rfl, rfl, rfl⟩
  · rw [generateHandler_oversize g store body now hp h1 h]
    exact ⟨rfl, rfl, rfl, rfl⟩

/-- C9 witness: the claim at a concrete 2001-character prompt, 2000 letters
followed by one space, whose trimmed length is 2000. -/
theorem oversized_raw_prompt_rejected_witness :
    2000 < (⟨List.replicate 2000 'a' ++ [' ']⟩ : String).length ∧
    ((generateHandler (fun s => .ok s) emptyStorage
        ⟨some (.str ⟨List.replicate 2000 'a' ++ [' ']⟩)⟩ 0).result.status
      = 400 ∧
    (generateHandler (fun s => .ok s) emptyStorage
        ⟨some (.str ⟨List.replicate 2000 'a' ++ [' ']⟩)⟩ 0).store
      = emptyStorage ∧
    (generateHandler (fun s => .ok s) emptyStorage
        ⟨some (.str ⟨List.replicate 2000 'a' ++ [' ']⟩)⟩ 0).genCalls = [] ∧
    (generateHandler (fun s => .ok s) emptyStorage
        ⟨some (.str ⟨List.replicate 2000 'a' ++ [' ']⟩)⟩ 0).created = []) := by
  have hlen : 2000 < (⟨List.replicate 2000 'a' ++ [' ']⟩ : String).length := by
    show 2000 < (List.replicate 2000 'a' ++ [' ']).length
    rw [List.length_append, List.length_replicate]
    decide
  exact ⟨hlen,
    oversized_raw_prompt_rejected (fun s => .ok s) emptyStorage
      ⟨some (.str ⟨List.replicate 2000 'a' ++ [' ']⟩)⟩ 0 rfl hlen⟩

/-- C10: for every collaborator output the 200 body carries the trimmed
output as its response field while the tokens field is floor of the length
of the untrimmed output over 4; in particular, at the concrete output
"bb    " the tokens field 1 differs from floor of the response-field length
over 4, which is 0. -/
theorem response_trimmed_tokens_untrimmed
    (g : String → Except GenError String) (store : MemStorage)
    (body : ReqBody) (now : Nat) {prompt r : String}
    (hp : promptSchema.parse body = some prompt)
    (h1 : trim prompt ≠ "") (h2 : prompt.length ≤ 2000)
    (hg : g prompt = .ok r) (_hw : trim r ≠ r) :
    ((generateHandler g store body now).result
      = .ok store.nextId (trim prompt) (trim r) now (r.length / 4)) ∧
    ((generateHandler (fun _ => .ok "bb    ") emptyStorage
        ⟨some (.str "go")⟩ 0).result = .ok 0 "go" "bb" 0 1 ∧
      (1 : Nat) ≠ "bb".length / 4) := by
  refine ⟨?_, by decide⟩
  rw [generateHandler_ok g store body now hp h1 h2 hg]

/-- C10 witness: the claim at prompt "go" and whitespace-padded output
" x". -/
theorem response_trimmed_tokens_untrimmed_witness :
    trim "go" ≠ "" ∧ "go".length ≤ 2000 ∧ trim " x" ≠ " x" ∧
    (((generateHandler (fun _ => .ok " x") emptyStorage
        ⟨some (.str "go")⟩ 0).result
      = .ok emptyStorage.nextId (trim "go") (trim " x") 0
          (" x".length / 4)) ∧
    ((generateHandler (fun _ => .ok "bb    ") emptyStorage
        ⟨some (.str "go")⟩ 0).result = .ok 0 "go" "bb" 0 1 ∧
      (1 : Nat) ≠ "bb".length / 4)) :=
  ⟨by decide, by decide, by decide,
    response_trimmed_tokens_untrimmed (fun _ => .ok " x") emptyStorage
      ⟨some (.str "go")⟩ 0 rfl (by decide) (by decide) rfl (by decide)⟩

end Relay
